import Mathlib

/-!
Shallow embedding of the session-correlated delegated message exchange of
the currency uAgents (`structured_currency_agent.py` and
`simple_currency_agent.py`).

Modelling conventions:
* `ctx.storage` is a key-value store `Storage := String → Option String`;
  `ctx.storage.set` is `storage_set`, `ctx.storage.get` is `storage_get`.
* A handler run is a pure function from its inputs to the updated storage and
  a trace of externally observable events (`Event`): storage writes, message
  sends (`ctx.send`), and invocations of `perform_currency_calculation`.
* The LangGraph collaborator (`currency_agent.ainvoke`) is abstracted as a
  function from the query string and the `thread_id` of the config to an
  `AgentResult`: it may raise (`fails`), return a falsy result / one without
  a messages key (`noMessages`), return a last message without a content
  attribute (`lastNoContent`), or return a last message with content
  (`lastContent`).
* Python `dict[str, Any]` values flowing through `msg.output` are modelled by
  `PyVal` (strings or numbers); numbers are rationals, and Python `float(x)`
  is `pyFloat` (a numeric-literal parser on strings; the exact textual form
  of the CPython error message is simplified).
* Timestamps and freshly generated uuids of outbound messages carry no
  information used by any handler, so outbound chat messages are modelled by
  their text payload alone.
-/

/-- A part of a `ChatMessage.content` list: the `TextContent` variant, or any
of the other content variants (ignored by these agents). -/
inductive ContentPart where
  | textContent (text : String)
  | otherContent
  deriving DecidableEq, Repr

/-- Inbound chat message: its id and ordered content parts. -/
structure ChatMessage where
  msg_id : String
  content : List ContentPart
  deriving DecidableEq, Repr

/-- Python values appearing in the weakly typed `msg.output` mapping. -/
inductive PyVal where
  | str (s : String)
  | num (q : Rat)
  deriving DecidableEq, Repr

/-- Payload of an outbound `ctx.send`. -/
inductive Payload where
  | chatAck (acknowledged_msg_id : String)
  | structuredPrompt (prompt : String)
  | chatText (text : String)
  deriving DecidableEq, Repr

/-- Externally observable events of one handler run, in program order. -/
inductive Event where
  | storeSet (key value : String)
  | send (rcpt : String) (payload : Payload)
  | calcInvoke (currency_from currency_to : String) (amount : Rat) (sender : String)
  deriving DecidableEq, Repr

/-- `ctx.storage`: a string-keyed store of strings. -/
def Storage : Type := String → Option String

/-- The empty store. -/
def storage_empty : Storage := fun _ => none

/-- `ctx.storage.set k v`. -/
def storage_set (st : Storage) (k v : String) : Storage :=
  fun k2 => if k2 = k then some v else st k2

/-- `ctx.storage.get k`. -/
def storage_get (st : Storage) (k : String) : Option String := st k

/-- Outcome of `currency_agent.ainvoke` as observed by the handlers. -/
inductive AgentResult where
  | fails (e : String)
  | noMessages
  | lastNoContent
  | lastContent (c : String)
  deriving DecidableEq, Repr

/-- The external extraction agent address configured in
`structured_currency_agent.py`. -/
def AI_AGENT_ADDRESS : String :=
  "agent1qtlpfshtlcxekgrfcpmv7m9zpajuwu7d5jfyachvpa4u3dkt6k0uwwp2lct"

/-- The dedented extraction prompt built from one text part. -/
def prompt_text (t : String) : String :=
  "\nExtract the currency conversion parameters from this message:\n\n\"" ++ t ++
  "\"\n\nThe user wants to perform a currency conversion. Extract:\n" ++
  "1. The currency_from: Source currency code (e.g., \"USD\", \"EUR\", \"GBP\")\n" ++
  "2. The currency_to: Target currency code (e.g., \"USD\", \"EUR\", \"GBP\")\n" ++
  "3. The amount: Amount to convert (default: 1.0 if not specified)\n\nExamples:\n" ++
  "- \"Convert 100 USD to EUR\" -> currency_from: \"USD\", currency_to: \"EUR\", amount: 100.0\n" ++
  "- \"What is GBP to JPY rate?\" -> currency_from: \"GBP\", currency_to: \"JPY\", amount: 1.0\n" ++
  "- \"Show me 50 euros in dollars\" -> currency_from: \"EUR\", currency_to: \"USD\", amount: 50.0\n\n" ++
  "If you cannot determine the currencies, set currency_from: \"USD\" and currency_to: \"EUR\" as defaults.\n" ++
  "If no amount is specified, use 1.0 as the default amount.\n"

/-- Look up a key in the `msg.output` mapping (Python `dict` lookup). -/
def dictLookup (d : List (String × PyVal)) (k : String) : Option PyVal :=
  (d.find? (fun p => p.1 == k)).map (fun p => p.2)

/-- Python `d.get(k, default)`. -/
def dictGet (d : List (String × PyVal)) (k : String) (dflt : PyVal) : PyVal :=
  (dictLookup d k).getD dflt

/-- Value of a list of decimal digit characters. -/
def digitsVal (cs : List Char) : Nat :=
  cs.foldl (fun a c => a * 10 + (c.toNat - 48)) 0

/-- Is the character ASCII whitespace (for the leading/trailing strip of
Python `float`). -/
def isWs (c : Char) : Bool :=
  c == ' ' || c == '\t' || c == '\n' || c == '\r'

/-- Strip leading and trailing whitespace. -/
def trimChars (cs : List Char) : List Char :=
  ((cs.dropWhile isWs).reverse.dropWhile isWs).reverse

/-- Split a character list at the dots. -/
def splitOnDot : List Char → List (List Char)
  | [] => [[]]
  | c :: cs =>
    let r := splitOnDot cs
    if c == '.' then [] :: r
    else
      match r with
      | [] => [[c]]
      | h :: tl => (c :: h) :: tl

/-- Python `float` applied to a string: optional sign, decimal digits with at
most one dot (exponents and special values are out of scope for this code). -/
def parseFloat (s : String) : Option Rat :=
  let cs := trimChars s.toList
  let sgn : Rat := match cs with | '-' :: _ => -1 | _ => 1
  let body : List Char := match cs with
    | '-' :: rest => rest
    | '+' :: rest => rest
    | _ => cs
  match splitOnDot body with
  | [ip] =>
    if !ip.isEmpty && ip.all Char.isDigit then some (sgn * digitsVal ip) else none
  | [ip, fp] =>
    if (!ip.isEmpty || !fp.isEmpty) && ip.all Char.isDigit && fp.all Char.isDigit then
      some (sgn * ((digitsVal ip : Rat) + (digitsVal fp : Rat) / (10 : Rat) ^ fp.length))
    else none
  | _ => none

/-- Python `float(x)` on a `PyVal`: numbers pass through, strings are parsed
and raise `ValueError` when not numeric. -/
def pyFloat : PyVal → Except String Rat
  | PyVal.num q => Except.ok q
  | PyVal.str s =>
    match parseFloat s with
    | some q => Except.ok q
    | none => Except.error ("could not convert string to float: " ++ s)

/-- Python `str` coercion used when a `PyVal` is interpolated into a query. -/
def pyStr : PyVal → String
  | PyVal.str s => s
  | PyVal.num q => toString q

/-- The parameter extraction of `handle_structured_output_response`
(lines 216-218): `msg.output.get` with the documented defaults, then
`float(...)`, which may raise. -/
def parse_calculation_request (output : List (String × PyVal)) :
    Except String (String × String × Rat) :=
  let currency_from := dictGet output "currency_from" (PyVal.str "USD")
  let currency_to := dictGet output "currency_to" (PyVal.str "EUR")
  match pyFloat (dictGet output "amount" (PyVal.num 1)) with
  | Except.ok amount => Except.ok (pyStr currency_from, pyStr currency_to, amount)
  | Except.error e => Except.error e

/-- The query string `perform_currency_calculation` sends to LangGraph. -/
def currencyQuery (currency_from currency_to : String) (amount : Rat) : String :=
  "How much is " ++ toString amount ++ " " ++ currency_from ++ " worth in " ++
  currency_to ++ "? Please calculate the exact converted amount."

/-- `perform_currency_calculation` of `structured_currency_agent.py`: invoke
the LangGraph collaborator with the query and the per-conversation
`thread_id`, and format its outcome, catching every exception into a
formatted error string. -/
def perform_currency_calculation (collab : String → String → AgentResult)
    (currency_from currency_to : String) (amount : Rat) (sender : String) : String :=
  match collab (currencyQuery currency_from currency_to amount) ("chat_" ++ sender) with
  | AgentResult.fails e =>
    "💱 CURRENCY CONVERSION ERROR 💱\\n\\nError: " ++ e
  | AgentResult.lastContent c =>
    "💱 CURRENCY CONVERSION 💱\\n\\n" ++ c
  | AgentResult.noMessages =>
    "💱 CURRENCY CONVERSION 💱\\n\\nUnable to convert " ++ toString amount ++ " " ++
      currency_from ++ " to " ++ currency_to
  | AgentResult.lastNoContent =>
    "💱 CURRENCY CONVERSION 💱\\n\\nUnable to convert " ++ toString amount ++ " " ++
      currency_from ++ " to " ++ currency_to

/-- One iteration of the `for item in msg.content` loop of the structured
agent's `handle_message`: a `TextContent` part re-records the sender and
dispatches the extraction prompt; other parts are skipped. -/
def hmStep (session sender : String) (acc : Storage × List Event)
    (item : ContentPart) : Storage × List Event :=
  match item with
  | ContentPart.textContent t =>
    (storage_set acc.1 session sender,
     acc.2 ++ [Event.storeSet session sender,
               Event.send AI_AGENT_ADDRESS (Payload.structuredPrompt (prompt_text t))])
  | ContentPart.otherContent => acc

/-- `handle_message` of `structured_currency_agent.py`: record the sender for
the session, acknowledge, then delegate each text part to the external
extraction agent. -/
def handle_message (st : Storage) (session sender : String) (msg : ChatMessage) :
    Storage × List Event :=
  let st1 := storage_set st session sender
  msg.content.foldl (hmStep session sender)
    (st1, [Event.storeSet session sender,
           Event.send sender (Payload.chatAck msg.msg_id)])

/-- `handle_structured_output_response` of `structured_currency_agent.py`:
parse the extraction output with defaults, read (not remove) the waiting
sender, invoke the calculation, and reply only when a sender is recorded; a
parse failure is caught and converted into an error reply to the recorded
sender, if any. -/
def handle_structured_output_response (st : Storage) (session : String)
    (collab : String → String → AgentResult) (output : List (String × PyVal)) :
    Storage × List Event :=
  match parse_calculation_request output with
  | Except.ok (currency_from, currency_to, amount) =>
    let session_sender := storage_get st session
    let result := perform_currency_calculation collab currency_from currency_to
      amount (session_sender.getD "unknown")
    (st,
     Event.calcInvoke currency_from currency_to amount (session_sender.getD "unknown") ::
       (match session_sender with
        | some s => [Event.send s (Payload.chatText result)]
        | none => []))
  | Except.error e =>
    match storage_get st session with
    | some s =>
      (st, [Event.send s (Payload.chatText ("Error processing currency request: " ++ e))])
    | none => (st, [])

/-- The reply text the simple agent builds for one text part: the formatted
LangGraph answer, the fallback text when the result is unusable, or the
caught-exception message. -/
def simple_reply (collab : String → String → AgentResult) (sender t : String) : String :=
  match collab t ("chat_" ++ sender) with
  | AgentResult.fails e => "Sorry, I encountered an error: " ++ e
  | AgentResult.noMessages => "Unable to process your currency request."
  | AgentResult.lastNoContent => "Unable to process your currency request."
  | AgentResult.lastContent c =>
    if c = "" then "Unable to process your currency request." else "ğŸ’± " ++ c

/-- One iteration of the `for item in msg.content` loop of the simple agent's
`handle_message`. -/
def shStep (collab : String → String → AgentResult) (sender : String)
    (acc : List Event) (item : ContentPart) : List Event :=
  match item with
  | ContentPart.textContent t =>
    acc ++ [Event.send sender (Payload.chatText (simple_reply collab sender t))]
  | ContentPart.otherContent => acc

/-- `handle_message` of `simple_currency_agent.py`: acknowledge, then answer
each text part in place (no storage use). -/
def simple_handle_message (collab : String → String → AgentResult) (sender : String)
    (msg : ChatMessage) : List Event :=
  Event.send sender (Payload.chatAck msg.msg_id) ::
    msg.content.foldl (shStep collab sender) []

/-- The message sends of an event trace, in order. -/
def sends : List Event → List (String × Payload)
  | [] => []
  | Event.send rcpt p :: es => (rcpt, p) :: sends es
  | Event.storeSet _ _ :: es => sends es
  | Event.calcInvoke _ _ _ _ :: es => sends es

/-- Number of acknowledgements for message id `m` sent to `s` in a trace. -/
def acks (s m : String) : List Event → Nat
  | [] => 0
  | Event.send rcpt (Payload.chatAck mid) :: es =>
    (if rcpt = s ∧ mid = m then 1 else 0) + acks s m es
  | Event.send _ (Payload.structuredPrompt _) :: es => acks s m es
  | Event.send _ (Payload.chatText _) :: es => acks s m es
  | Event.storeSet _ _ :: es => acks s m es
  | Event.calcInvoke _ _ _ _ :: es => acks s m es

/-- The calculation invocations of an event trace, in order. -/
def calcInvokes : List Event → List (String × String × Rat × String)
  | [] => []
  | Event.calcInvoke a b q s :: es => (a, b, q, s) :: calcInvokes es
  | Event.send _ _ :: es => calcInvokes es
  | Event.storeSet _ _ :: es => calcInvokes es

/-- The text parts of a content list, in order. -/
def textParts : List ContentPart → List String
  | [] => []
  | ContentPart.textContent t :: l => t :: textParts l
  | ContentPart.otherContent :: l => textParts l

deriving instance DecidableEq for Except

/-- The events the structured agent's content loop appends for a list of text
parts, in order: a sender re-record and a prompt dispatch per part. -/
def promptEvents (session sender : String) : List String → List Event
  | [] => []
  | t :: ts =>
    Event.storeSet session sender ::
      Event.send AI_AGENT_ADDRESS (Payload.structuredPrompt (prompt_text t)) ::
        promptEvents session sender ts

/-- The events the simple agent's content loop appends for a list of text
parts, in order: one reply per part. -/
def replyEvents (collab : String → String → AgentResult) (sender : String) :
    List String → List Event
  | [] => []
  | t :: ts =>
    Event.send sender (Payload.chatText (simple_reply collab sender t)) ::
      replyEvents collab sender ts

/-- Store holding `"X"` as the waiting sender of session `"s1"`. -/
def store_s1_X : Storage := storage_set storage_empty "s1" "X"

/-- A collaborator that always answers. -/
def collab_ok : String → String → AgentResult := fun _ _ => AgentResult.lastContent "converted"

/-- An extraction output whose amount field is a non-numeric string. -/
def output_bad_amount : List (String × PyVal) := [("amount", PyVal.str "abc")]

/-- A fully populated extraction output. -/
def output_gbp_jpy : List (String × PyVal) :=
  [("currency_from", PyVal.str "GBP"), ("currency_to", PyVal.str "JPY"),
   ("amount", PyVal.num 1)]

lemma hm_loop_events (session sender : String) :
    ∀ (l : List ContentPart) (st : Storage) (evs : List Event),
      (l.foldl (hmStep session sender) (st, evs)).2 =
        evs ++ promptEvents session sender (textParts l) := by
  intro l
  induction l with
  | nil => intro st evs; simp [textParts, promptEvents]
  | cons hd tl ih =>
    intro st evs
    cases hd with
    | textContent t =>
      simp only [List.foldl, hmStep, textParts, promptEvents]
      rw [ih]
      simp
    | otherContent =>
      simp only [List.foldl, hmStep, textParts]
      exact ih st evs

lemma hm_loop_storage (session sender : String) :
    ∀ (l : List ContentPart) (st : Storage) (evs : List Event),
      storage_get st session = some sender →
      storage_get (l.foldl (hmStep session sender) (st, evs)).1 session = some sender := by
  intro l
  induction l with
  | nil => intro st evs h; simpa using h
  | cons hd tl ih =>
    intro st evs h
    cases hd with
    | textContent t =>
      simp only [List.foldl, hmStep]
      exact ih _ _ (by simp [storage_get, storage_set])
    | otherContent =>
      simp only [List.foldl, hmStep]
      exact ih st evs h

lemma handle_message_events (st : Storage) (session sender : String) (msg : ChatMessage) :
    (handle_message st session sender msg).2 =
      Event.storeSet session sender :: Event.send sender (Payload.chatAck msg.msg_id) ::
        promptEvents session sender (textParts msg.content) := by
  unfold handle_message
  rw [hm_loop_events]
  simp

lemma handle_message_storage (st : Storage) (session sender : String) (msg : ChatMessage) :
    storage_get (handle_message st session sender msg).1 session = some sender := by
  unfold handle_message
  exact hm_loop_storage session sender _ _ _ (by simp [storage_get, storage_set])

lemma sh_loop_events (collab : String → String → AgentResult) (sender : String) :
    ∀ (l : List ContentPart) (evs : List Event),
      l.foldl (shStep collab sender) evs =
        evs ++ replyEvents collab sender (textParts l) := by
  intro l
  induction l with
  | nil => intro evs; simp [textParts, replyEvents]
  | cons hd tl ih =>
    intro evs
    cases hd with
    | textContent t =>
      simp only [List.foldl, shStep, textParts, replyEvents]
      rw [ih]
      simp
    | otherContent =>
      simp only [List.foldl, shStep, textParts]
      exact ih evs

lemma simple_handle_message_events (collab : String → String → AgentResult)
    (sender : String) (msg : ChatMessage) :
    simple_handle_message collab sender msg =
      Event.send sender (Payload.chatAck msg.msg_id) ::
        replyEvents collab sender (textParts msg.content) := by
  unfold simple_handle_message
  rw [sh_loop_events]
  simp

lemma acks_promptEvents (s m session sender : String) :
    ∀ ts, acks s m (promptEvents session sender ts) = 0 := by
  intro ts
  induction ts with
  | nil => simp [promptEvents, acks]
  | cons t ts ih => simp [promptEvents, acks, ih]

lemma acks_replyEvents (s m : String) (collab : String → String → AgentResult)
    (sender : String) :
    ∀ ts, acks s m (replyEvents collab sender ts) = 0 := by
  intro ts
  induction ts with
  | nil => simp [replyEvents, acks]
  | cons t ts ih => simp [replyEvents, acks, ih]

lemma sends_promptEvents (session sender : String) :
    ∀ ts, sends (promptEvents session sender ts) =
      ts.map (fun t => (AI_AGENT_ADDRESS, Payload.structuredPrompt (prompt_text t))) := by
  intro ts
  induction ts with
  | nil => simp [promptEvents, sends]
  | cons t ts ih => simp [promptEvents, sends, ih]

lemma sends_replyEvents (collab : String → String → AgentResult) (sender : String) :
    ∀ ts, sends (replyEvents collab sender ts) =
      ts.map (fun t => (sender, Payload.chatText (simple_reply collab sender t))) := by
  intro ts
  induction ts with
  | nil => simp [replyEvents, sends]
  | cons t ts ih => simp [replyEvents, sends, ih]

/-- C1: for every inbound chat message, each agent's `handle_message` emits
exactly one acknowledgement referencing the message id to the message's
sender, before any per-part processing, and independent of the collaborator's
behaviour on the downstream path. -/
theorem acknowledgement_totality :
    ∀ (st : Storage) (session sender : String) (msg : ChatMessage)
      (collab : String → String → AgentResult),
      acks sender msg.msg_id (handle_message st session sender msg).2 = 1 ∧
      acks sender msg.msg_id (simple_handle_message collab sender msg) = 1 := by
  intro st session sender msg collab
  rw [handle_message_events, simple_handle_message_events]
  simp [acks, acks_promptEvents, acks_replyEvents]

/-- C2 counterexample: the lookup in `handle_structured_output_response` is
`ctx.storage.get`, which is not destructive — after a complete delegated
round trip for session `"s1"` the store still maps `"s1"` to `"X"`, so a
second take returns the same sender, not absent. -/
theorem session_take_destructive_counterexample :
    storage_get store_s1_X "s1" = some "X" ∧
    storage_get (handle_structured_output_response store_s1_X "s1" collab_ok
      output_gbp_jpy).1 "s1" = some "X" := by
  exact ⟨by decide, by decide⟩

/-- C2 amended: `handle_structured_output_response` never modifies the
session store; the sender lookup is a non-destructive read, so a repeated
lookup yields the same sender and the entry survives the round trip. -/
theorem session_lookup_nondestructive :
    ∀ (st : Storage) (session : String) (collab : String → String → AgentResult)
      (output : List (String × PyVal)),
      (handle_structured_output_response st session collab output).1 = st := by
  intro st session collab output
  unfold handle_structured_output_response
  cases hp : parse_calculation_request output with
  | ok v =>
    obtain ⟨a, b, q⟩ := v
    cases storage_get st session <;> simp
  | error e =>
    cases storage_get st session <;> simp

/-- C3: `ctx.storage.set` is last-write-wins — after recording `A` and then
`B` for the same session, a lookup returns `B` and never `A`; likewise two
successive `handle_message` runs on one session leave the later sender. -/
theorem session_last_write_wins :
    ∀ (st : Storage) (s A B : String) (msg1 msg2 : ChatMessage),
      storage_get (storage_set (storage_set st s A) s B) s = some B ∧
      (A ≠ B → storage_get (storage_set (storage_set st s A) s B) s ≠ some A) ∧
      storage_get (handle_message (handle_message st s A msg1).1 s B msg2).1 s = some B := by
  intro st s A B msg1 msg2
  refine ⟨by simp [storage_get, storage_set], ?_, handle_message_storage _ _ _ _⟩
  intro hne h
  rw [show storage_get (storage_set (storage_set st s A) s B) s = some B from
    by simp [storage_get, storage_set]] at h
  exact hne (Option.some.inj h).symm

/-- C3 witness at a concrete store and senders. -/
theorem session_last_write_wins_witness :
    storage_get (storage_set (storage_set storage_empty "s1" "A") "s1" "B") "s1" = some "B" ∧
    storage_get (storage_set (storage_set storage_empty "s1" "A") "s1" "B") "s1" ≠ some "A" := by
  have h := session_last_write_wins storage_empty "s1" "A" "B" ⟨"m", []⟩ ⟨"m", []⟩
  exact ⟨h.1, h.2.1 (by decide)⟩

/-- C9: each agent processes every `TextContent` part in order (one
delegation / one reply per text part), ignores the other parts, and a message
with zero text parts results in the acknowledgement as its only send. -/
theorem text_part_processing :
    ∀ (st : Storage) (session sender : String) (msg : ChatMessage)
      (collab : String → String → AgentResult),
      ((handle_message st session sender msg).2 =
        Event.storeSet session sender ::
          Event.send sender (Payload.chatAck msg.msg_id) ::
            promptEvents session sender (textParts msg.content)) ∧
      (simple_handle_message collab sender msg =
        Event.send sender (Payload.chatAck msg.msg_id) ::
          replyEvents collab sender (textParts msg.content)) ∧
      (textParts msg.content = [] →
        sends (handle_message st session sender msg).2 = [(sender, Payload.chatAck msg.msg_id)] ∧
        sends (simple_handle_message collab sender msg) = [(sender, Payload.chatAck msg.msg_id)]) := by
  intro st session sender msg collab
  refine ⟨handle_message_events _ _ _ _, simple_handle_message_events _ _ _, ?_⟩
  intro h
  rw [handle_message_events, simple_handle_message_events, h]
  simp [promptEvents, replyEvents, sends]

/-- C9 witness: a message whose only part is not text yields just the
acknowledgement in both agents. -/
theorem text_part_processing_witness :
    sends (handle_message storage_empty "s1" "X" ⟨"m1", [ContentPart.otherContent]⟩).2 =
      [("X", Payload.chatAck "m1")] ∧
    sends (simple_handle_message (fun _ _ => AgentResult.noMessages) "X"
      ⟨"m1", [ContentPart.otherContent]⟩) = [("X", Payload.chatAck "m1")] := by
  have h := text_part_processing storage_empty "s1" "X" ⟨"m1", [ContentPart.otherContent]⟩
    (fun _ _ => AgentResult.noMessages)
  exact h.2.2 rfl

/-- C10: the structured agent's `handle_message` records the sender for the
session on every inbound message (text parts or not), and this store write is
the first event, before the acknowledgement send. -/
theorem store_overwrite_before_ack :
    ∀ (st : Storage) (session sender : String) (msg : ChatMessage),
      storage_get (handle_message st session sender msg).1 session = some sender ∧
      ∃ rest, (handle_message st session sender msg).2 =
        Event.storeSet session sender ::
          Event.send sender (Payload.chatAck msg.msg_id) :: rest := by
  intro st session sender msg
  exact ⟨handle_message_storage _ _ _ _,
    ⟨promptEvents session sender (textParts msg.content), handle_message_events _ _ _ _⟩⟩

/-- C4: when no waiting sender is recorded for the session of an incoming
`StructuredOutputResponse`, no message is sent to anyone. -/
theorem correlation_loss_no_reply :
    ∀ (st : Storage) (session : String) (collab : String → String → AgentResult)
      (output : List (String × PyVal)),
      storage_get st session = none →
      sends (handle_structured_output_response st session collab output).2 = [] := by
  intro st session collab output h
  unfold handle_structured_output_response
  cases hp : parse_calculation_request output with
  | ok v =>
    obtain ⟨a, b, q⟩ := v
    simp [h, sends]
  | error e =>
    simp [h, sends]

/-- C4 witness: an unknown session yields an empty send list. -/
theorem correlation_loss_no_reply_witness :
    sends (handle_structured_output_response storage_empty "s9" collab_ok []).2 = [] :=
  correlation_loss_no_reply storage_empty "s9" collab_ok [] rfl

/-- C5 counterexample: with no waiting sender recorded for `"s1"`, the
calculation is still invoked (with the fallback sender `"unknown"`), refuting
that the adapter runs only when the lookup yields a sender. -/
theorem calc_invoked_without_sender_counterexample :
    storage_get storage_empty "s1" = none ∧
    calcInvokes (handle_structured_output_response storage_empty "s1" collab_ok []).2 =
      [("USD", "EUR", (1 : Rat), "unknown")] := by
  exact ⟨rfl, by decide⟩

/-- C5 amended: whenever the response parses, the calculation adapter is
invoked exactly once, regardless of the sender lookup; only the reply send is
conditional — absent sender drops the reply, present sender gets exactly the
formatted result. -/
theorem calc_invocation_unconditional :
    ∀ (st : Storage) (session : String) (collab : String → String → AgentResult)
      (output : List (String × PyVal)) (currency_from currency_to : String) (q : Rat),
      parse_calculation_request output = Except.ok (currency_from, currency_to, q) →
      calcInvokes (handle_structured_output_response st session collab output).2 =
        [(currency_from, currency_to, q, (storage_get st session).getD "unknown")] ∧
      (storage_get st session = none →
        sends (handle_structured_output_response st session collab output).2 = []) ∧
      (∀ w, storage_get st session = some w →
        sends (handle_structured_output_response st session collab output).2 =
          [(w, Payload.chatText
            (perform_currency_calculation collab currency_from currency_to q w))]) := by
  intro st session collab output currency_from currency_to q hp
  unfold handle_structured_output_response
  rw [hp]
  refine ⟨?_, ?_, ?_⟩
  · cases storage_get st session <;> simp [calcInvokes, sends]
  · intro h; rw [h]; simp [calcInvokes, sends]
  · intro w h; rw [h]; simp [calcInvokes, sends]

/-- C5 amended witness: empty output parses to the defaults and the adapter
is invoked even though session `"s2"` has no recorded sender. -/
theorem calc_invocation_unconditional_witness :
    calcInvokes (handle_structured_output_response storage_empty "s2"
      (fun _ _ => AgentResult.noMessages) []).2 = [("USD", "EUR", (1 : Rat), "unknown")] ∧
    sends (handle_structured_output_response storage_empty "s2"
      (fun _ _ => AgentResult.noMessages) []).2 = [] := by
  have h := calc_invocation_unconditional storage_empty "s2"
    (fun _ _ => AgentResult.noMessages) [] "USD" "EUR" 1 (by decide)
  exact ⟨by simpa [storage_get, storage_empty] using h.1, h.2.1 rfl⟩

/-- C6: an empty extraction output yields exactly the documented fallback
calculation request, and the handler invokes the calculation with it. -/
theorem defaulting_determinism :
    parse_calculation_request [] = Except.ok ("USD", "EUR", (1 : Rat)) ∧
    ∀ (st : Storage) (session : String) (collab : String → String → AgentResult),
      calcInvokes (handle_structured_output_response st session collab []).2 =
        [("USD", "EUR", (1 : Rat), (storage_get st session).getD "unknown")] := by
  refine ⟨by decide, ?_⟩
  intro st session collab
  unfold handle_structured_output_response
  rw [show parse_calculation_request [] = Except.ok ("USD", "EUR", (1 : Rat)) from by decide]
  cases storage_get st session <;> simp [calcInvokes]

/-- C7 counterexample: an output whose `amount` field is the non-numeric
string `"abc"` is not masked by defaulting — the `float` conversion raises
and the except branch sends an error reply to the recorded requester `"X"`,
without invoking the calculation. -/
theorem malformed_amount_error_reply_counterexample :
    sends (handle_structured_output_response store_s1_X "s1" collab_ok output_bad_amount).2 =
      [("X", Payload.chatText
        "Error processing currency request: could not convert string to float: abc")] ∧
    calcInvokes (handle_structured_output_response store_s1_X "s1" collab_ok
      output_bad_amount).2 = [] := by
  exact ⟨by decide, by decide⟩

/-- C7 amended: missing fields are masked by the documented defaults without
surfacing an error, but a malformed (non-numeric) `amount` field is not
masked — the raised conversion error is caught and an error reply is sent to
the recorded waiting sender, with no calculation invoked. -/
theorem defaulting_masks_missing_not_malformed :
    ∀ (st : Storage) (session : String) (collab : String → String → AgentResult)
      (output : List (String × PyVal)) (w s : String),
      (dictLookup output "amount" = some (PyVal.str s) → parseFloat s = none →
        storage_get st session = some w →
        sends (handle_structured_output_response st session collab output).2 =
          [(w, Payload.chatText
            ("Error processing currency request: " ++
              ("could not convert string to float: " ++ s)))] ∧
        calcInvokes (handle_structured_output_response st session collab output).2 = []) ∧
      (dictLookup output "amount" = none →
        parse_calculation_request output =
          Except.ok (pyStr (dictGet output "currency_from" (PyVal.str "USD")),
                     pyStr (dictGet output "currency_to" (PyVal.str "EUR")), (1 : Rat))) := by
  intro st session collab output w s
  constructor
  · intro hamt hpf hget
    have hp : parse_calculation_request output =
        Except.error ("could not convert string to float: " ++ s) := by
      unfold parse_calculation_request
      simp [dictGet, hamt, pyFloat, hpf]
    unfold handle_structured_output_response
    rw [hp, hget]
    simp [sends, calcInvokes]
  · intro hamt
    unfold parse_calculation_request
    simp [dictGet, hamt, pyFloat]

/-- C7 amended witness: concrete malformed and missing amount fields. -/
theorem defaulting_masks_missing_not_malformed_witness :
    (sends (handle_structured_output_response store_s1_X "s1" collab_ok
        output_bad_amount).2 =
      [("X", Payload.chatText
        ("Error processing currency request: " ++
          ("could not convert string to float: " ++ "abc")))] ∧
     calcInvokes (handle_structured_output_response store_s1_X "s1" collab_ok
        output_bad_amount).2 = []) ∧
    parse_calculation_request [("currency_from", PyVal.str "GBP")] =
      Except.ok ("GBP", "EUR", (1 : Rat)) := by
  refine ⟨(defaulting_masks_missing_not_malformed store_s1_X "s1" collab_ok
    output_bad_amount "X" "abc").1 (by decide) (by decide) (by decide), ?_⟩
  exact ((defaulting_masks_missing_not_malformed store_s1_X "s1" collab_ok
    [("currency_from", PyVal.str "GBP")] "X" "abc").2 (by decide)).trans (by decide)

/-- C8: `perform_currency_calculation` converts a raising collaborator into a
fixed, non-empty formatted error string instead of propagating the failure;
with a recorded sender the structured agent then sends exactly one reply
carrying that error string, and the simple agent likewise answers a
single-text-part message with the acknowledgement plus one error reply. -/
theorem error_containment :
    ∀ (e currency_from currency_to : String) (q : Rat) (sender : String)
      (st : Storage) (session w mid t : String) (output : List (String × PyVal)),
      (perform_currency_calculation (fun _ _ => AgentResult.fails e)
        currency_from currency_to q sender =
        "💱 CURRENCY CONVERSION ERROR 💱\\n\\nError: " ++ e) ∧
      (perform_currency_calculation (fun _ _ => AgentResult.fails e)
        currency_from currency_to q sender ≠ "") ∧
      (parse_calculation_request output = Except.ok (currency_from, currency_to, q) →
        storage_get st session = some w →
        sends (handle_structured_output_response st session
            (fun _ _ => AgentResult.fails e) output).2 =
          [(w, Payload.chatText ("💱 CURRENCY CONVERSION ERROR 💱\\n\\nError: " ++ e))]) ∧
      (sends (simple_handle_message (fun _ _ => AgentResult.fails e) sender
          ⟨mid, [ContentPart.textContent t]⟩) =
        [(sender, Payload.chatAck mid),
         (sender, Payload.chatText ("Sorry, I encountered an error: " ++ e))]) := by
  intro e currency_from currency_to q sender st session w mid t output
  refine ⟨rfl, ?_, ?_, ?_⟩
  · intro h
    obtain ⟨d⟩ := e
    have h2 := congrArg String.data h
    simp [perform_currency_calculation, String.append] at h2
  · intro hp hget
    unfold handle_structured_output_response
    rw [hp, hget]
    simp [sends, perform_currency_calculation]
  · rw [simple_handle_message_events]
    simp [textParts, replyEvents, sends, simple_reply]

/-- C8 witness: a collaborator that always raises `"boom"` still yields
exactly one non-empty error reply in each agent at concrete inputs. -/
theorem error_containment_witness :
    (perform_currency_calculation (fun _ _ => AgentResult.fails "boom") "GBP" "JPY" 1 "X" ≠ "") ∧
    sends (handle_structured_output_response store_s1_X "s1"
        (fun _ _ => AgentResult.fails "boom") output_gbp_jpy).2 =
      [("X", Payload.chatText ("💱 CURRENCY CONVERSION ERROR 💱\\n\\nError: " ++ "boom"))] ∧
    sends (simple_handle_message (fun _ _ => AgentResult.fails "boom") "Y"
        ⟨"m7", [ContentPart.textContent "hi"]⟩) =
      [("Y", Payload.chatAck "m7"),
       ("Y", Payload.chatText ("Sorry, I encountered an error: " ++ "boom"))] := by
  have h := error_containment "boom" "GBP" "JPY" 1 "Y" store_s1_X "s1" "X" "m7" "hi" output_gbp_jpy
  have h2 := error_containment "boom" "GBP" "JPY" 1 "X" store_s1_X "s1" "X" "m7" "hi" output_gbp_jpy
  exact ⟨h2.2.1, h.2.2.1 (by decide) (by decide), h.2.2.2⟩
